import Mathlib

/-!
Verification of the Orecpp civil-time components library
(`src/orecpptest/src/time/{DateComponents,TimeComponents,DateTimeComponents}.cpp`).

The C++ code is shallowly embedded as follows:
* C++ `int`, `long`, `int64_t` values are modelled by `Int` (unbounded).
  C++ `/` and `%` on integers truncate toward zero; they are modelled by
  `cppDiv` and `cppMod` below (`Int.tdiv` / `Int.tmod`).
* C++ `double` values are modelled by exact rationals (`ℚ`).  The model has
  no NaN and no rounding; floating-point literals are taken at their decimal
  value.
* The polymorphic `YearFactory` / `MonthDayFactory` class hierarchies are
  modelled by structures whose fields are the virtual member functions, with
  one namespace per concrete C++ class.
-/

/-- C++ integer division: truncation toward zero (`Int.tdiv`). -/
def cppDiv (a b : Int) : Int := Int.tdiv a b

/-- C++ integer remainder: same sign as the dividend (`Int.tmod`). -/
def cppMod (a b : Int) : Int := Int.tmod a b

theorem cppDiv_nonneg_eq {a b : Int} (ha : 0 ≤ a) (hb : 0 ≤ b) :
    cppDiv a b = a / b := Int.tdiv_eq_ediv ha hb

theorem cppDiv_nonpos_eq {a b : Int} (ha : a ≤ 0) (hb : 0 ≤ b) :
    cppDiv a b = -(-a / b) := by
  have h1 : cppDiv a b = -(cppDiv (-a) b) := by
    unfold cppDiv
    rw [show a = -(-a) by ring, Int.neg_tdiv]
    ring_nf
  rw [h1, cppDiv_nonneg_eq (by omega) hb]

theorem cppMod_eq_sub (a b : Int) : cppMod a b = a - b * cppDiv a b := by
  unfold cppMod cppDiv
  have := Int.tdiv_add_tmod a b
  omega

/-- Interface for dealing with years sequences according to some calendar
(`class YearFactory`). -/
structure YearFactory where
  getYear : Int → Int
  getLastJ2000DayOfYear : Int → Int
  isLeap : Int → Bool

/-- Interface for dealing with months sequences according to leap/common years
(`class MonthDayFactory`). -/
structure MonthDayFactory where
  getMonth : Int → Int
  getDay : Int → Int → Int
  getDayInYear : Int → Int → Int

namespace ProlepticJulianFactory

/-- `return (int)-((-4l * j2000Day - 2920488l) / 1461l);` -/
def getYear (j2000Day : Int) : Int := -(cppDiv (-4 * j2000Day - 2920488) 1461)

/-- `return 365 * year + (year + 1) / 4 - 730123;` -/
def getLastJ2000DayOfYear (year : Int) : Int :=
  365 * year + cppDiv (year + 1) 4 - 730123

/-- `return (year % 4) == 0;` -/
def isLeap (year : Int) : Bool := cppMod year 4 == 0

end ProlepticJulianFactory

def PROLEPTIC_JULIAN_FACTORY : YearFactory :=
  ⟨ProlepticJulianFactory.getYear, ProlepticJulianFactory.getLastJ2000DayOfYear,
   ProlepticJulianFactory.isLeap⟩

namespace JulianFactory

/-- `return (int)((4l * j2000Day + 2921948l) / 1461l);` -/
def getYear (j2000Day : Int) : Int := cppDiv (4 * j2000Day + 2921948) 1461

/-- `return 365 * year + year / 4 - 730122;` -/
def getLastJ2000DayOfYear (year : Int) : Int :=
  365 * year + cppDiv year 4 - 730122

/-- `return (year % 4) == 0;` -/
def isLeap (year : Int) : Bool := cppMod year 4 == 0

end JulianFactory

def JULIAN_FACTORY : YearFactory :=
  ⟨JulianFactory.getYear, JulianFactory.getLastJ2000DayOfYear, JulianFactory.isLeap⟩

namespace GregorianFactory

/-- `return 365 * year + year / 4 - year / 100 + year / 400 - 730120;` -/
def getLastJ2000DayOfYear (year : Int) : Int :=
  365 * year + cppDiv year 4 - cppDiv year 100 + cppDiv year 400 - 730120

/-- Year estimate then a conditional one-unit decrement, as in the source. -/
def getYear (j2000Day : Int) : Int :=
  let year := cppDiv (400 * j2000Day + 292194288) 146097
  if j2000Day ≤ getLastJ2000DayOfYear (year - 1) then year - 1 else year

/-- `return ((year % 4) == 0) && (((year % 400) == 0) || ((year % 100) != 0));` -/
def isLeap (year : Int) : Bool :=
  cppMod year 4 == 0 && (cppMod year 400 == 0 || cppMod year 100 != 0)

end GregorianFactory

def GREGORIAN_FACTORY : YearFactory :=
  ⟨GregorianFactory.getYear, GregorianFactory.getLastJ2000DayOfYear, GregorianFactory.isLeap⟩

namespace LeapYearFactory

/-- Months succession definition for leap years. -/
def PREVIOUS_MONTH_END_DAY : List Int :=
  [0, 0, 31, 60, 91, 121, 152, 182, 213, 244, 274, 305, 335]

/-- `return (dayInYear < 32) ? 1 : (10 * dayInYear + 313) / 306;` -/
def getMonth (dayInYear : Int) : Int :=
  if dayInYear < 32 then 1 else cppDiv (10 * dayInYear + 313) 306

/-- `return dayInYear - PREVIOUS_MONTH_END_DAY[month];` -/
def getDay (dayInYear month : Int) : Int :=
  dayInYear - PREVIOUS_MONTH_END_DAY.getD month.toNat 0

/-- `return day + PREVIOUS_MONTH_END_DAY[month];` -/
def getDayInYear (month day : Int) : Int :=
  day + PREVIOUS_MONTH_END_DAY.getD month.toNat 0

end LeapYearFactory

def LEAP_YEAR_FACTORY : MonthDayFactory :=
  ⟨LeapYearFactory.getMonth, LeapYearFactory.getDay, LeapYearFactory.getDayInYear⟩

namespace CommonYearFactory

/-- Months succession definition for common years. -/
def PREVIOUS_MONTH_END_DAY : List Int :=
  [0, 0, 31, 59, 90, 120, 151, 181, 212, 243, 273, 304, 334]

/-- `return (dayInYear < 32) ? 1 : (10 * dayInYear + 323) / 306;` -/
def getMonth (dayInYear : Int) : Int :=
  if dayInYear < 32 then 1 else cppDiv (10 * dayInYear + 323) 306

/-- `return dayInYear - PREVIOUS_MONTH_END_DAY[month];` -/
def getDay (dayInYear month : Int) : Int :=
  dayInYear - PREVIOUS_MONTH_END_DAY.getD month.toNat 0

/-- `return day + PREVIOUS_MONTH_END_DAY[month];` -/
def getDayInYear (month day : Int) : Int :=
  day + PREVIOUS_MONTH_END_DAY.getD month.toNat 0

end CommonYearFactory

def COMMON_YEAR_FACTORY : MonthDayFactory :=
  ⟨CommonYearFactory.getMonth, CommonYearFactory.getDay, CommonYearFactory.getDayInYear⟩

/-- A date broken up as year, month and day components
(`class DateComponents`, fields `year`, `month`, `day`). -/
structure DateComponents where
  year : Int
  month : Int
  day : Int
deriving DecidableEq, Repr

namespace DateComponents

/-- `DateComponents::DateComponents(int year, int month, int day)`: the
three-argument constructor only copies its arguments into the fields; the
source performs no validation. -/
def mk3 (year month day : Int) : DateComponents := ⟨year, month, day⟩

/-- Shared tail of `DateComponents::DateComponents(int offset)` after the
year factory has been selected. -/
def buildFromFactory (yFactory : YearFactory) (offset : Int) : DateComponents :=
  let year := yFactory.getYear offset
  let dayInYear := offset - yFactory.getLastJ2000DayOfYear (year - 1)
  let mdFactory := if yFactory.isLeap year then LEAP_YEAR_FACTORY else COMMON_YEAR_FACTORY
  { year := year
    month := mdFactory.getMonth dayInYear
    day := mdFactory.getDay dayInYear (mdFactory.getMonth dayInYear) }

/-- `DateComponents::DateComponents(int offset)`: day-count to triple.
Regime selection: proleptic Julian up to `-730122`, Julian from `-730121`
to `-152385`, Gregorian from `-152384` on. -/
def ofOffset (offset : Int) : DateComponents :=
  buildFromFactory
    (if offset < -152384 then
       (if offset > -730122 then JULIAN_FACTORY else PROLEPTIC_JULIAN_FACTORY)
     else GREGORIAN_FACTORY)
    offset

def getYear (c : DateComponents) : Int := c.year

def getMonth (c : DateComponents) : Int := c.month

def getDay (c : DateComponents) : Int := c.day

/-- Shared tail of `DateComponents::getJ2000Day` after the year factory has
been selected. -/
def j2000WithFactory (yFactory : YearFactory) (c : DateComponents) : Int :=
  let mdFactory := if yFactory.isLeap c.year then LEAP_YEAR_FACTORY else COMMON_YEAR_FACTORY
  yFactory.getLastJ2000DayOfYear (c.year - 1) + mdFactory.getDayInYear c.month c.day

/-- `DateComponents::getJ2000Day`: triple to day-count, with the regime
selected from the calendar triple. -/
def getJ2000Day (c : DateComponents) : Int :=
  j2000WithFactory
    (if c.year < 1583 then
       (if c.year < 1 then PROLEPTIC_JULIAN_FACTORY
        else if c.year < 1582 ∨ c.month < 10 ∨ (c.month < 11 ∧ c.day < 5) then JULIAN_FACTORY
        else GREGORIAN_FACTORY)
     else GREGORIAN_FACTORY)
    c

/-- `DateComponents::DateComponents(const DateComponents& epoch, int offset)`. -/
def ofEpochOffset (epoch : DateComponents) (offset : Int) : DateComponents :=
  ofOffset (epoch.getJ2000Day + offset)

/-- A triple is valid when it denotes a real day, i.e. when it is the
day-count-to-triple image of some day-count (spec §3: "the triple must
correspond to a real day under the regime selection rule"). -/
def ValidTriple (c : DateComponents) : Prop := ∃ d : Int, ofOffset d = c

end DateComponents

/-! ### Correctness of the calendar engine -/

theorem mdCancel (mdF : MonthDayFactory)
    (h : mdF = LEAP_YEAR_FACTORY ∨ mdF = COMMON_YEAR_FACTORY) (diy m : Int) :
    mdF.getDayInYear m (mdF.getDay diy m) = diy := by
  rcases h with rfl | rfl <;>
    simp only [LEAP_YEAR_FACTORY, COMMON_YEAR_FACTORY, LeapYearFactory.getDay,
      LeapYearFactory.getDayInYear, CommonYearFactory.getDay,
      CommonYearFactory.getDayInYear] <;> omega

theorem build_year (yF : YearFactory) (d : Int) :
    (DateComponents.buildFromFactory yF d).year = yF.getYear d := rfl

/-- The shared tails of the two conversions are mutually inverse as soon as
both sides select the same year factory. -/
theorem j2000_build (yF : YearFactory) (d : Int) :
    DateComponents.j2000WithFactory yF (DateComponents.buildFromFactory yF d) = d := by
  simp only [DateComponents.j2000WithFactory, DateComponents.buildFromFactory]
  rcases Bool.eq_false_or_eq_true (yF.isLeap (yF.getYear d)) with hL | hL <;>
    simp only [hL, Bool.false_eq_true, if_false, if_true,
      mdCancel LEAP_YEAR_FACTORY (Or.inl rfl),
      mdCancel COMMON_YEAR_FACTORY (Or.inr rfl)] <;>
    omega

theorem ofOffset_eq_pj {d : Int} (h : d ≤ -730122) :
    DateComponents.ofOffset d =
      DateComponents.buildFromFactory PROLEPTIC_JULIAN_FACTORY d := by
  unfold DateComponents.ofOffset
  rw [if_pos (by omega : d < -152384), if_neg (by omega : ¬ d > -730122)]

theorem ofOffset_eq_julian {d : Int} (h1 : -730121 ≤ d) (h2 : d ≤ -152385) :
    DateComponents.ofOffset d = DateComponents.buildFromFactory JULIAN_FACTORY d := by
  unfold DateComponents.ofOffset
  rw [if_pos (by omega : d < -152384), if_pos (by omega : d > -730122)]

theorem ofOffset_eq_greg {d : Int} (h : -152384 ≤ d) :
    DateComponents.ofOffset d = DateComponents.buildFromFactory GREGORIAN_FACTORY d := by
  unfold DateComponents.ofOffset
  rw [if_neg (by omega : ¬ d < -152384)]

theorem getJ2000Day_sel_pj {c : DateComponents} (h : c.year < 1) :
    c.getJ2000Day = DateComponents.j2000WithFactory PROLEPTIC_JULIAN_FACTORY c := by
  unfold DateComponents.getJ2000Day
  rw [if_pos (by omega : c.year < 1583), if_pos h]

theorem getJ2000Day_sel_julian {c : DateComponents} (h1 : 1 ≤ c.year) (h3 : c.year ≤ 1582)
    (h2 : c.year < 1582 ∨ c.month < 10 ∨ (c.month < 11 ∧ c.day < 5)) :
    c.getJ2000Day = DateComponents.j2000WithFactory JULIAN_FACTORY c := by
  unfold DateComponents.getJ2000Day
  rw [if_pos (by omega : c.year < 1583), if_neg (by omega : ¬ c.year < 1), if_pos h2]

theorem getJ2000Day_sel_greg_high {c : DateComponents} (h : 1583 ≤ c.year) :
    c.getJ2000Day = DateComponents.j2000WithFactory GREGORIAN_FACTORY c := by
  unfold DateComponents.getJ2000Day
  rw [if_neg (by omega : ¬ c.year < 1583)]

theorem getJ2000Day_sel_greg_1582 {c : DateComponents} (h1 : c.year = 1582)
    (h2 : ¬ (c.year < 1582 ∨ c.month < 10 ∨ (c.month < 11 ∧ c.day < 5))) :
    c.getJ2000Day = DateComponents.j2000WithFactory GREGORIAN_FACTORY c := by
  unfold DateComponents.getJ2000Day
  rw [if_pos (by omega : c.year < 1583), if_neg (by omega : ¬ c.year < 1), if_neg h2]

/-- Proleptic Julian year formula: year bound and year-interval membership
for all offsets in the proleptic Julian regime. -/
theorem pj_correct {d : Int} (h : d ≤ -730122) :
    PROLEPTIC_JULIAN_FACTORY.getYear d ≤ 0 ∧
    PROLEPTIC_JULIAN_FACTORY.getLastJ2000DayOfYear (PROLEPTIC_JULIAN_FACTORY.getYear d - 1) < d ∧
    (PROLEPTIC_JULIAN_FACTORY.getYear d ≤ -1 →
      d ≤ PROLEPTIC_JULIAN_FACTORY.getLastJ2000DayOfYear (PROLEPTIC_JULIAN_FACTORY.getYear d)) := by
  show ProlepticJulianFactory.getYear d ≤ 0 ∧
    ProlepticJulianFactory.getLastJ2000DayOfYear (ProlepticJulianFactory.getYear d - 1) < d ∧
    (ProlepticJulianFactory.getYear d ≤ -1 →
      d ≤ ProlepticJulianFactory.getLastJ2000DayOfYear (ProlepticJulianFactory.getYear d))
  unfold ProlepticJulianFactory.getYear
  rw [cppDiv_nonneg_eq (by omega) (by omega)]
  set q := (-4 * d - 2920488) / 1461 with hq
  have hq0 : 0 ≤ q := by omega
  refine ⟨by omega, ?_, ?_⟩
  · unfold ProlepticJulianFactory.getLastJ2000DayOfYear
    rw [cppDiv_nonpos_eq (show -q - 1 + 1 ≤ 0 by omega) (by omega)]
    omega
  · intro hy1
    unfold ProlepticJulianFactory.getLastJ2000DayOfYear
    rw [cppDiv_nonpos_eq (show -q + 1 ≤ 0 by omega) (by omega)]
    omega

/-- Julian year formula: year bounds and year-interval membership for all
offsets in the Julian regime. -/
theorem julian_correct {d : Int} (h1 : -730121 ≤ d) (h2 : d ≤ -152385) :
    1 ≤ JULIAN_FACTORY.getYear d ∧ JULIAN_FACTORY.getYear d ≤ 1582 ∧
    JULIAN_FACTORY.getLastJ2000DayOfYear (JULIAN_FACTORY.getYear d - 1) < d ∧
    d ≤ JULIAN_FACTORY.getLastJ2000DayOfYear (JULIAN_FACTORY.getYear d) := by
  show 1 ≤ JulianFactory.getYear d ∧ JulianFactory.getYear d ≤ 1582 ∧
    JulianFactory.getLastJ2000DayOfYear (JulianFactory.getYear d - 1) < d ∧
    d ≤ JulianFactory.getLastJ2000DayOfYear (JulianFactory.getYear d)
  unfold JulianFactory.getYear JulianFactory.getLastJ2000DayOfYear
  rw [cppDiv_nonneg_eq (by omega) (by omega)]
  set y := (4 * d + 2921948) / 1461 with hy
  have hy1 : 1 ≤ y := by omega
  rw [cppDiv_nonneg_eq (show (0:Int) ≤ y - 1 by omega) (by omega),
      cppDiv_nonneg_eq (show (0:Int) ≤ y by omega) (by omega)]
  exact ⟨hy1, by omega, by omega, by omega⟩

theorem gregLast_ediv {y : Int} (h : 0 ≤ y) :
    GregorianFactory.getLastJ2000DayOfYear y = 365 * y + y / 4 - y / 100 + y / 400 - 730120 := by
  unfold GregorianFactory.getLastJ2000DayOfYear
  rw [cppDiv_nonneg_eq h (by omega), cppDiv_nonneg_eq h (by omega),
      cppDiv_nonneg_eq h (by omega)]

set_option maxHeartbeats 1000000 in
theorem greg_key (s : Int) (h1 : 0 ≤ s) (h2 : s < 400) :
    100 * (s % 4) + s - 4 * (s % 100) ≤ 591 := by
  interval_cases s <;> decide

/-- Gregorian year formula: the closed-form estimate with one conditional
decrement yields the year whose interval contains the offset, for all offsets
in the Gregorian regime. -/
theorem greg_correct {d : Int} (h : -152384 ≤ d) :
    1582 ≤ GREGORIAN_FACTORY.getYear d ∧
    GREGORIAN_FACTORY.getLastJ2000DayOfYear (GREGORIAN_FACTORY.getYear d - 1) < d ∧
    d ≤ GREGORIAN_FACTORY.getLastJ2000DayOfYear (GREGORIAN_FACTORY.getYear d) := by
  show 1582 ≤ GregorianFactory.getYear d ∧
    GregorianFactory.getLastJ2000DayOfYear (GregorianFactory.getYear d - 1) < d ∧
    d ≤ GregorianFactory.getLastJ2000DayOfYear (GregorianFactory.getYear d)
  simp only [GregorianFactory.getYear]
  rw [cppDiv_nonneg_eq (by omega) (by omega)]
  set e := (400 * d + 292194288) / 146097 with he
  have he2 : 1582 ≤ e := by omega
  have hund : d ≤ 365 * e + e / 4 - e / 100 + e / 400 - 730120 := by
    have h4 : e / 4 = 100 * (e / 400) + (e % 400) / 4 := by omega
    have h100 : e / 100 = 4 * (e / 400) + (e % 400) / 100 := by omega
    have hkey := greg_key (e % 400) (by omega) (by omega)
    omega
  rw [gregLast_ediv (show (0:Int) ≤ e - 1 by omega)]
  split_ifs with hc
  · have he3 : 1583 ≤ e := by omega
    rw [gregLast_ediv (show (0:Int) ≤ e - 1 - 1 by omega),
        gregLast_ediv (show (0:Int) ≤ e - 1 by omega)]
    exact ⟨by omega, by omega, by omega⟩
  · rw [gregLast_ediv (show (0:Int) ≤ e - 1 by omega),
        gregLast_ediv (show (0:Int) ≤ e by omega)]
    exact ⟨by omega, by omega, by omega⟩

/-- A Julian-regime offset mapped to year 1582 yields a month/day before
October 5, so `getJ2000Day` selects the Julian factory for the triple. -/
theorem julian1582_cond {d : Int} (h2 : d ≤ -152385)
    (hy : JULIAN_FACTORY.getYear d = 1582) :
    (DateComponents.buildFromFactory JULIAN_FACTORY d).month < 10 ∨
    ((DateComponents.buildFromFactory JULIAN_FACTORY d).month < 11 ∧
     (DateComponents.buildFromFactory JULIAN_FACTORY d).day < 5) := by
  simp only [DateComponents.buildFromFactory]
  rw [hy]
  have hL : JULIAN_FACTORY.isLeap 1582 = false := by decide
  have hlast : JULIAN_FACTORY.getLastJ2000DayOfYear (1582 - 1) = -152662 := by decide
  rw [hL, hlast]
  simp only [Bool.false_eq_true, if_false, COMMON_YEAR_FACTORY,
    CommonYearFactory.getMonth, CommonYearFactory.getDay]
  split_ifs with h32
  · left
    norm_num
  · rw [cppDiv_nonneg_eq (by omega) (by omega)]
    set m := (10 * (d - -152662) + 323) / 306 with hm
    have hm10 : m ≤ 10 := by omega
    rcases lt_or_eq_of_le hm10 with hlt | heq
    · exact Or.inl hlt
    · right
      have htbl : CommonYearFactory.PREVIOUS_MONTH_END_DAY.getD (Int.toNat 10) 0 = 273 := by
        decide
      rw [heq, htbl]
      constructor
      · norm_num
      · omega

/-- A Gregorian-regime offset mapped to year 1582 yields a month/day from
October 15 on, so `getJ2000Day` does not select the Julian factory. -/
theorem greg_1582_cond {d : Int} (h : -152384 ≤ d)
    (hy : GREGORIAN_FACTORY.getYear d = 1582) :
    ¬ ((DateComponents.buildFromFactory GREGORIAN_FACTORY d).year < 1582 ∨
       (DateComponents.buildFromFactory GREGORIAN_FACTORY d).month < 10 ∨
       ((DateComponents.buildFromFactory GREGORIAN_FACTORY d).month < 11 ∧
        (DateComponents.buildFromFactory GREGORIAN_FACTORY d).day < 5)) := by
  have hup := (greg_correct h).2.2
  rw [hy] at hup
  have h82 : GREGORIAN_FACTORY.getLastJ2000DayOfYear 1582 = -152307 := by decide
  rw [h82] at hup
  simp only [DateComponents.buildFromFactory]
  rw [hy]
  have hL : GREGORIAN_FACTORY.isLeap 1582 = false := by decide
  have hlast : GREGORIAN_FACTORY.getLastJ2000DayOfYear (1582 - 1) = -152672 := by decide
  rw [hL, hlast]
  simp only [Bool.false_eq_true, if_false, COMMON_YEAR_FACTORY,
    CommonYearFactory.getMonth, CommonYearFactory.getDay]
  split_ifs with h32
  · omega
  · rw [cppDiv_nonneg_eq (by omega) (by omega)]
    set m := (10 * (d - -152672) + 323) / 306 with hm
    have hm10 : 10 ≤ m := by omega
    rintro (hbad | hbad | ⟨hb1, hb2⟩)
    · omega
    · omega
    · have hmeq : m = 10 := by omega
      have htbl : CommonYearFactory.PREVIOUS_MONTH_END_DAY.getD (Int.toNat 10) 0 = 273 := by
        decide
      rw [hmeq, htbl] at hb2
      omega

/-- Round trip: converting any day-count to a calendar triple and back
returns the same day-count (`DateComponents(offset).getJ2000Day() == offset`). -/
theorem getJ2000Day_ofOffset (d : Int) :
    (DateComponents.ofOffset d).getJ2000Day = d := by
  rcases le_or_lt d (-730122) with hd | hd
  · rw [ofOffset_eq_pj hd, getJ2000Day_sel_pj
      (by rw [build_year]; have := (pj_correct hd).1; omega)]
    exact j2000_build _ _
  · rcases le_or_lt d (-152385) with hd2 | hd2
    · have hc := julian_correct (by omega) hd2
      rw [ofOffset_eq_julian (by omega) hd2]
      rcases lt_or_eq_of_le hc.2.1 with h81 | h82
      · rw [getJ2000Day_sel_julian (by rw [build_year]; exact hc.1)
          (by rw [build_year]; exact hc.2.1) (by rw [build_year]; left; omega)]
        exact j2000_build _ _
      · rw [getJ2000Day_sel_julian (by rw [build_year]; exact hc.1)
          (by rw [build_year]; exact hc.2.1)
          (Or.inr (by simpa using julian1582_cond hd2 h82))]
        exact j2000_build _ _
    · have hg := greg_correct (by omega : -152384 ≤ d)
      rw [ofOffset_eq_greg (by omega)]
      rcases lt_or_eq_of_le hg.1 with h83 | h82
      · rw [getJ2000Day_sel_greg_high (by rw [build_year]; omega)]
        exact j2000_build _ _
      · rw [getJ2000Day_sel_greg_1582 (by rw [build_year]; omega)
          (greg_1582_cond (by omega) h82.symm)]
        exact j2000_build _ _

namespace DateComponents

/-- Day-count of January 1st of a year: the expression
`DateComponents(year, 1, 1).getJ2000Day()` used by `getFirstWeekMonday`. -/
def jan1Day (year : Int) : Int := (mk3 year 1 1).getJ2000Day

/-- `DateComponents::getFirstWeekMonday` (static): Monday of a year's first
ISO week. -/
def getFirstWeekMonday (year : Int) : Int :=
  let yearFirst := jan1Day year
  let offsetToMonday := 4 - cppMod (yearFirst + 2) 7
  yearFirst + offsetToMonday + (if offsetToMonday > 3 then -7 else 0)

/-- `DateComponents::getCalendarWeek`: ISO week number, with the two
adjustment branches of the source. -/
def getCalendarWeek (c : DateComponents) : Int :=
  let firstWeekMonday := getFirstWeekMonday c.year
  let daysSincefirstMonday := c.getJ2000Day - firstWeekMonday
  let adjusted :=
    if daysSincefirstMonday < 0 then
      daysSincefirstMonday + (firstWeekMonday - getFirstWeekMonday (c.year - 1))
    else if daysSincefirstMonday > 363 then
      (if daysSincefirstMonday ≥ getFirstWeekMonday (c.year + 1) - firstWeekMonday then
         daysSincefirstMonday - (getFirstWeekMonday (c.year + 1) - firstWeekMonday)
       else daysSincefirstMonday)
    else daysSincefirstMonday
  1 + cppDiv adjusted 7

/-- `DateComponents::getDayOfWeek`: 1 (Monday) .. 7 (Sunday). -/
def getDayOfWeek (c : DateComponents) : Int :=
  let dow := cppMod (c.getJ2000Day + 6) 7
  if dow < 1 then dow + 7 else dow

/-- `DateComponents::createFromWeekComponents`: build a date from ISO week
components; the source performs no validation of the week number. -/
def createFromWeekComponents (wYear week dayOfWeek : Int) : DateComponents :=
  ofEpochOffset (ofOffset (getFirstWeekMonday wYear)) (7 * week + dayOfWeek - 8)

/-- Number of ISO weeks in a week-year (not a source function: the valid
week range `1 .. weeksInYear` for `createFromWeekComponents` implied by the
algorithm, "week 53 on a 52 weeks year" being the documented invalid case). -/
def weeksInYear (year : Int) : Int :=
  (getFirstWeekMonday (year + 1) - getFirstWeekMonday year) / 7

/-- `DateComponents::operator<`: compares the two day-counts. -/
def ltOp (a b : DateComponents) : Prop := a.getJ2000Day < b.getJ2000Day

instance (a b : DateComponents) : Decidable (a.ltOp b) := by
  unfold ltOp
  infer_instance

/-- `DateComponents::operator==`: component-wise equality of the triple. -/
def eqOp (a b : DateComponents) : Prop :=
  a.year = b.year ∧ a.month = b.month ∧ a.day = b.day

end DateComponents

/-- Two's-complement bit pattern of a C++ 32-bit `int`. -/
def toBits32 (x : Int) : Nat := (x % 4294967296).toNat

/-- 32-bit two's-complement pattern back to the `int` value it denotes. -/
def ofBits32 (n : Nat) : Int :=
  if n < 2147483648 then (n : Int) else (n : Int) - 4294967296

/-- C++ `<<` on 32-bit `int` (two's-complement wrap-around). -/
def shl32 (x : Int) (k : Nat) : Int := ofBits32 ((toBits32 x <<< k) % 4294967296)

/-- C++ `^` on 32-bit `int`. -/
def xor32 (a b : Int) : Int := ofBits32 (Nat.xor (toBits32 a) (toBits32 b))

/-- Two's-complement bit pattern of a C++ `int64_t`. -/
def toBits64 (x : Int) : Nat := (x % 18446744073709551616).toNat

/-- 64-bit two's-complement pattern back to the `int64_t` value it denotes. -/
def ofBits64 (n : Nat) : Int :=
  if n < 9223372036854775808 then (n : Int) else (n : Int) - 18446744073709551616

/-- C++ `^` on `int64_t`. -/
def xor64 (a b : Int) : Int := ofBits64 (Nat.xor (toBits64 a) (toBits64 b))

/-- C++ `>>` on `int64_t` (arithmetic shift right is floor division). -/
def asr64 (x : Int) (k : Nat) : Int := x / (2 ^ k : Int)

/-- C++ cast from `int64_t` to 32-bit `int` (wrap-around). -/
def castToInt32 (x : Int) : Int := ofBits32 (toBits32 x)

/-- `DateComponents::hashCode`: `(year << 16) ^ (month << 8) ^ day`. -/
def DateComponents.hashCode (c : DateComponents) : Int :=
  xor32 (xor32 (shl32 c.year 16) (shl32 c.month 8)) c.day

/-! ### Year membership of offsets, and the ISO week geometry -/

theorem j2000WithFactory_jan1 (yF : YearFactory) (y : Int) :
    DateComponents.j2000WithFactory yF (DateComponents.mk3 y 1 1) =
      yF.getLastJ2000DayOfYear (y - 1) + 1 := by
  simp only [DateComponents.j2000WithFactory, DateComponents.mk3]
  rcases Bool.eq_false_or_eq_true (yF.isLeap y) with hL | hL <;>
    simp only [hL, Bool.false_eq_true, if_false, if_true] <;>
    norm_num [LEAP_YEAR_FACTORY, COMMON_YEAR_FACTORY, LeapYearFactory.getDayInYear,
      CommonYearFactory.getDayInYear, LeapYearFactory.PREVIOUS_MONTH_END_DAY,
      CommonYearFactory.PREVIOUS_MONTH_END_DAY]

theorem jan1Day_pj {y : Int} (h : y ≤ 0) :
    DateComponents.jan1Day y = 365 * (y - 1) + cppDiv y 4 - 730122 := by
  unfold DateComponents.jan1Day
  rw [getJ2000Day_sel_pj (show (DateComponents.mk3 y 1 1).year < 1 by
        show y < 1; omega),
      j2000WithFactory_jan1]
  show 365 * (y - 1) + cppDiv (y - 1 + 1) 4 - 730123 + 1 = _
  have hn : y - 1 + 1 = y := by ring
  rw [hn]
  ring

theorem jan1Day_julian {y : Int} (h1 : 1 ≤ y) (h2 : y ≤ 1582) :
    DateComponents.jan1Day y = 365 * (y - 1) + cppDiv (y - 1) 4 - 730121 := by
  unfold DateComponents.jan1Day
  rw [getJ2000Day_sel_julian (show 1 ≤ (DateComponents.mk3 y 1 1).year from h1)
        (show (DateComponents.mk3 y 1 1).year ≤ 1582 from h2)
        (Or.inr (Or.inl (show (DateComponents.mk3 y 1 1).month < 10 by
          show (1:Int) < 10; norm_num))),
      j2000WithFactory_jan1]
  show 365 * (y - 1) + cppDiv (y - 1) 4 - 730122 + 1 = _
  ring

theorem jan1Day_greg {y : Int} (h : 1583 ≤ y) :
    DateComponents.jan1Day y = GREGORIAN_FACTORY.getLastJ2000DayOfYear (y - 1) + 1 := by
  unfold DateComponents.jan1Day
  rw [getJ2000Day_sel_greg_high (show 1583 ≤ (DateComponents.mk3 y 1 1).year from h),
      j2000WithFactory_jan1]

/-- Every offset lies in the January-1st interval of the year computed by
the day-count-to-triple conversion. -/
theorem year_mem (o : Int) :
    DateComponents.jan1Day ((DateComponents.ofOffset o).year) ≤ o ∧
    o < DateComponents.jan1Day ((DateComponents.ofOffset o).year + 1) := by
  rcases le_or_lt o (-730122) with hd | hd
  · rw [ofOffset_eq_pj hd, build_year]
    have hc := pj_correct hd
    set y := PROLEPTIC_JULIAN_FACTORY.getYear o with hy
    have hlow : ProlepticJulianFactory.getLastJ2000DayOfYear (y - 1) < o := hc.2.1
    unfold ProlepticJulianFactory.getLastJ2000DayOfYear at hlow
    have hn : y - 1 + 1 = y := by ring
    rw [hn] at hlow
    constructor
    · rw [jan1Day_pj hc.1]
      omega
    · rcases lt_or_eq_of_le hc.1 with hy1 | hy0
      · have hup : o ≤ ProlepticJulianFactory.getLastJ2000DayOfYear y := hc.2.2 (by omega)
        unfold ProlepticJulianFactory.getLastJ2000DayOfYear at hup
        rw [jan1Day_pj (by omega : y + 1 ≤ 0)]
        have hn2 : y + 1 - 1 = y := by ring
        rw [hn2]
        omega
      · rw [hy0]
        have : DateComponents.jan1Day (0 + 1) = -730121 := by decide
        omega
  · rcases le_or_lt o (-152385) with hd2 | hd2
    · rw [ofOffset_eq_julian (by omega) hd2, build_year]
      have hc := julian_correct (by omega) hd2
      set y := JULIAN_FACTORY.getYear o with hy
      have hlow : JulianFactory.getLastJ2000DayOfYear (y - 1) < o := hc.2.2.1
      have hup : o ≤ JulianFactory.getLastJ2000DayOfYear y := hc.2.2.2
      unfold JulianFactory.getLastJ2000DayOfYear at hlow hup
      constructor
      · rw [jan1Day_julian hc.1 hc.2.1]
        omega
      · rcases lt_or_eq_of_le hc.2.1 with hy1 | hy82
        · rw [jan1Day_julian (show (1:Int) ≤ y + 1 by omega) (show y + 1 ≤ 1582 by omega)]
          have hn2 : y + 1 - 1 = y := by ring
          rw [hn2]
          omega
        · rw [hy82]
          have : DateComponents.jan1Day (1582 + 1) = -152306 := by decide
          omega
    · rw [ofOffset_eq_greg (by omega), build_year]
      have hc := greg_correct (show (-152384:Int) ≤ o by omega)
      set y := GREGORIAN_FACTORY.getYear o with hy
      rcases lt_or_eq_of_le hc.1 with hy83 | hy82
      · constructor
        · rw [jan1Day_greg (by omega)]
          have := hc.2.1
          omega
        · rw [jan1Day_greg (by omega : (1583:Int) ≤ y + 1)]
          have hn2 : y + 1 - 1 = y := by ring
          rw [hn2]
          have := hc.2.2
          omega
      · have hup := hc.2.2
        rw [← hy82] at hup
        have h82 : GREGORIAN_FACTORY.getLastJ2000DayOfYear 1582 = -152307 := by decide
        rw [h82] at hup
        constructor
        · rw [← hy82]
          have : DateComponents.jan1Day 1582 = -152661 := by decide
          omega
        · rw [← hy82]
          have : DateComponents.jan1Day (1582 + 1) = -152306 := by decide
          omega

/-- Length of calendar years: 365 or 366 days, except 355 days for 1582
(the ten dropped days of the Gregorian reform). -/
theorem jan1Day_succ (y : Int) :
    DateComponents.jan1Day y + 355 ≤ DateComponents.jan1Day (y + 1) ∧
    DateComponents.jan1Day (y + 1) ≤ DateComponents.jan1Day y + 366 ∧
    (y ≠ 1582 → DateComponents.jan1Day y + 365 ≤ DateComponents.jan1Day (y + 1)) := by
  rcases le_or_lt y (-1) with hy | hy
  · rw [jan1Day_pj (by omega : y ≤ 0), jan1Day_pj (by omega : y + 1 ≤ 0)]
    rw [cppDiv_nonpos_eq (by omega : y ≤ 0) (by omega),
        cppDiv_nonpos_eq (by omega : y + 1 ≤ 0) (by omega)]
    have hn : y + 1 - 1 = y := by ring
    rw [hn]
    omega
  · rcases lt_or_eq_of_le (by omega : 0 ≤ y) with hy0 | hy0
    · rcases le_or_lt y 1581 with hy81 | hy81
      · rw [jan1Day_julian (by omega) (by omega),
            jan1Day_julian (show (1:Int) ≤ y + 1 by omega) (show y + 1 ≤ 1582 by omega)]
        have hn : y + 1 - 1 = y := by ring
        rw [hn]
        rw [cppDiv_nonneg_eq (by omega : (0:Int) ≤ y - 1) (by omega),
            cppDiv_nonneg_eq (by omega : (0:Int) ≤ y) (by omega)]
        omega
      · rcases lt_or_eq_of_le (by omega : 1582 ≤ y) with hy82 | hy82
        · rw [jan1Day_greg (by omega), jan1Day_greg (show (1583:Int) ≤ y + 1 by omega)]
          have hn : y + 1 - 1 = y := by ring
          rw [hn]
          show GregorianFactory.getLastJ2000DayOfYear (y - 1) + 1 + 355 ≤
              GregorianFactory.getLastJ2000DayOfYear y + 1 ∧
            GregorianFactory.getLastJ2000DayOfYear y + 1 ≤
              GregorianFactory.getLastJ2000DayOfYear (y - 1) + 1 + 366 ∧
            (y ≠ 1582 → GregorianFactory.getLastJ2000DayOfYear (y - 1) + 1 + 365 ≤
              GregorianFactory.getLastJ2000DayOfYear y + 1)
          rw [gregLast_ediv (by omega : (0:Int) ≤ y - 1), gregLast_ediv (by omega : (0:Int) ≤ y)]
          have d1 : y / 4 = 25 * (y / 100) + (y % 100) / 4 := by omega
          have d2 : (y-1) / 4 = 25 * ((y-1) / 100) + ((y-1) % 100) / 4 := by omega
          have d3 : y / 100 = 4 * (y / 400) + (y % 400) / 100 := by omega
          have d4 : (y-1) / 100 = 4 * ((y-1) / 400) + ((y-1) % 400) / 100 := by omega
          omega
        · rw [← hy82]
          have e1 : DateComponents.jan1Day 1582 = -152661 := by decide
          have e2 : DateComponents.jan1Day (1582 + 1) = -152306 := by decide
          omega
    · rw [← hy0]
      have e1 : DateComponents.jan1Day 0 = -730487 := by decide
      have e2 : DateComponents.jan1Day (0 + 1) = -730121 := by decide
      omega

theorem jan1Day_strictMono : StrictMono DateComponents.jan1Day :=
  strictMono_int_of_lt_succ (fun y => by have := jan1Day_succ y; omega)

/-- The calendar year of an offset is determined by its January-1st
interval. -/
theorem year_eq_of_mem {o y : Int} (h1 : DateComponents.jan1Day y ≤ o)
    (h2 : o < DateComponents.jan1Day (y + 1)) :
    (DateComponents.ofOffset o).year = y := by
  have hm := year_mem o
  by_contra hne
  rcases lt_or_gt_of_ne hne with hlt | hgt
  · have hmono := jan1Day_strictMono.monotone
      (show (DateComponents.ofOffset o).year + 1 ≤ y by omega)
    omega
  · have hmono := jan1Day_strictMono.monotone
      (show y + 1 ≤ (DateComponents.ofOffset o).year by omega)
    omega

theorem cppMod_cases7 (a : Int) :
    (0 ≤ a → cppMod a 7 = a % 7) ∧ (a ≤ 0 → cppMod a 7 = -((-a) % 7)) := by
  constructor
  · intro ha
    rw [cppMod_eq_sub, cppDiv_nonneg_eq ha (by omega)]
    omega
  · intro ha
    rw [cppMod_eq_sub, cppDiv_nonpos_eq ha (by omega)]
    omega

/-- The first-week Monday of a year is a Monday (day-count congruent to 2
modulo 7) within three days of January 1st. -/
theorem fwm_spec (y : Int) :
    DateComponents.getFirstWeekMonday y % 7 = 2 ∧
    DateComponents.jan1Day y - 3 ≤ DateComponents.getFirstWeekMonday y ∧
    DateComponents.getFirstWeekMonday y ≤ DateComponents.jan1Day y + 3 := by
  simp only [DateComponents.getFirstWeekMonday]
  have hmod := cppMod_cases7 (DateComponents.jan1Day y + 2)
  rcases le_or_lt 0 (DateComponents.jan1Day y + 2) with hs | hs
  · rw [hmod.1 hs]
    split_ifs with h3 <;> omega
  · rw [hmod.2 (by omega)]
    split_ifs with h3 <;> omega

/-- Consecutive first-week Mondays are an exact number of weeks apart;
50 to 53 weeks, and at least 52 weeks away from the reform year. -/
theorem fwm_diff (y : Int) :
    DateComponents.getFirstWeekMonday (y + 1) - DateComponents.getFirstWeekMonday y =
      7 * DateComponents.weeksInYear y ∧
    350 ≤ 7 * DateComponents.weeksInYear y ∧ 7 * DateComponents.weeksInYear y ≤ 371 ∧
    (y ≠ 1582 → 364 ≤ 7 * DateComponents.weeksInYear y) := by
  have h1 := fwm_spec y
  have h2 := fwm_spec (y + 1)
  have h3 := jan1Day_succ y
  unfold DateComponents.weeksInYear
  omega

/-- ISO week-date round trip: a date built from valid week components
reports exactly those week and day-of-week numbers. -/
theorem week_roundtrip_aux {wYear week dow : Int} (hd1 : 1 ≤ dow) (hd7 : dow ≤ 7)
    (hw1 : 1 ≤ week) (hwW : week ≤ DateComponents.weeksInYear wYear) :
    (DateComponents.createFromWeekComponents wYear week dow).getCalendarWeek = week ∧
    (DateComponents.createFromWeekComponents wYear week dow).getDayOfWeek = dow := by
  have hcfw : DateComponents.createFromWeekComponents wYear week dow =
      DateComponents.ofOffset (DateComponents.getFirstWeekMonday wYear + (7 * week + dow - 8)) := by
    unfold DateComponents.createFromWeekComponents DateComponents.ofEpochOffset
    rw [getJ2000Day_ofOffset]
  rw [hcfw]
  set o := DateComponents.getFirstWeekMonday wYear + (7 * week + dow - 8) with hodef
  have hW := fwm_diff wYear
  have hfsW := fwm_spec wYear
  have hfs1 := fwm_spec (wYear + 1)
  have hs := jan1Day_succ wYear
  have hs1 := jan1Day_succ (wYear + 1)
  have hsm := jan1Day_succ (wYear - 1)
  have hWm := fwm_diff (wYear - 1)
  have hfsm := fwm_spec (wYear - 1)
  have hnm : wYear - 1 + 1 = wYear := by ring
  rw [hnm] at hsm hWm
  have hJo := getJ2000Day_ofOffset o
  constructor
  · -- getCalendarWeek
    rcases lt_or_ge o (DateComponents.jan1Day wYear) with hA | hA
    · -- the date falls in late December of wYear - 1
      by_cases h83 : wYear = 1583
      · exfalso
        subst h83
        have c1 : DateComponents.getFirstWeekMonday 1583 = -152304 := by decide
        have c2 : DateComponents.jan1Day 1583 = -152306 := by decide
        omega
      · have hyB : (DateComponents.ofOffset o).year = wYear - 1 :=
          year_eq_of_mem (by omega) (by rw [hnm]; omega)
        have h364 : 364 ≤ 7 * DateComponents.weeksInYear (wYear - 1) := hWm.2.2.2 (by omega)
        simp only [DateComponents.getCalendarWeek]
        rw [hyB, hJo, hnm]
        rw [if_neg (by omega), if_pos (by omega), if_pos (by omega)]
        rw [cppDiv_nonneg_eq (by omega) (by omega)]
        omega
    · rcases lt_or_ge o (DateComponents.jan1Day (wYear + 1)) with hB | hB
      · -- the date falls inside wYear
        have hyA : (DateComponents.ofOffset o).year = wYear := year_eq_of_mem hA hB
        simp only [DateComponents.getCalendarWeek]
        rw [hyA, hJo]
        rw [if_neg (by omega)]
        by_cases h363 : o - DateComponents.getFirstWeekMonday wYear > 363
        · rw [if_pos h363, if_neg (by omega)]
          rw [cppDiv_nonneg_eq (by omega) (by omega)]
          omega
        · rw [if_neg h363]
          rw [cppDiv_nonneg_eq (by omega) (by omega)]
          omega
      · -- the date falls in early January of wYear + 1
        have hyC : (DateComponents.ofOffset o).year = wYear + 1 :=
          year_eq_of_mem hB (by omega)
        simp only [DateComponents.getCalendarWeek]
        rw [hyC, hJo]
        have hn2 : wYear + 1 - 1 = wYear := by ring
        rw [hn2]
        rw [if_pos (by omega)]
        rw [cppDiv_nonneg_eq (by omega) (by omega)]
        omega
  · -- getDayOfWeek
    simp only [DateComponents.getDayOfWeek]
    rw [hJo]
    have hmod := cppMod_cases7 (o + 6)
    rcases le_or_lt 0 (o + 6) with hsg | hsg
    · rw [hmod.1 hsg]
      split_ifs with hlt <;> omega
    · rw [hmod.2 (by omega)]
      split_ifs with hlt <;> omega

namespace Constants

/-- Modelled from the spec: `Constants::JULIAN_DAY` is declared in
`utils/Constants.h`, which is not among the sources; spec §4.2/§4.3 fix the
day length at 86400 seconds. -/
def JULIAN_DAY : ℚ := 86400

end Constants

/-- Truncation of a value toward zero: the C++ cast from `double` to an
integer type. -/
def ratTrunc (q : ℚ) : Int := if 0 ≤ q then ⌊q⌋ else ⌈q⌉

/-- A time within the day broken up as hour, minute and second components
(`class TimeComponents`, fields `hour`, `minute`, `second`,
`minutesFromUTC`). -/
structure TimeComponents where
  hour : Int
  minute : Int
  second : ℚ
  minutesFromUTC : Int
deriving DecidableEq, Repr

namespace TimeComponents

/-- `TimeComponents(int hour, int minute, double second, int minutesFromUTC)`:
copies its arguments (no validation in the source). -/
def mkHMSU (hour minute : Int) (second : ℚ) (minutesFromUTC : Int) : TimeComponents :=
  ⟨hour, minute, second, minutesFromUTC⟩

/-- `TimeComponents(int hour, int minute, double second)`: delegates with a
zero UTC offset. -/
def mkHMS (hour minute : Int) (second : ℚ) : TimeComponents :=
  mkHMSU hour minute second 0

/-- `TimeComponents(int secondInDayA, double secondInDayB, double leap,
int minuteDuration)`, also exposed as `TimeComponents::fromSeconds`.  The
range checks of the original are commented out in the source; the
`std::isnan(naiveSecond)` disjunct of the clamped branch cannot fire in the
exact-rational model, which has no NaN. -/
def fromSeconds (secondInDayA : Int) (secondInDayB leap : ℚ)
    (minuteDuration : Int) : TimeComponents :=
  let carry : Int := ⌊secondInDayB⌋
  let wholeSeconds : Int := secondInDayA + carry
  let fractional : ℚ := secondInDayB - carry
  let hour := cppDiv wholeSeconds 3600
  let rem1 := wholeSeconds - 3600 * hour
  let minute := cppDiv rem1 60
  let rem2 := rem1 - 60 * minute
  let naiveSecond : ℚ := (rem2 : ℚ) + (leap + fractional)
  { hour := hour
    minute := minute
    second :=
      if naiveSecond < (minuteDuration : ℚ) then naiveSecond
      else (minuteDuration : ℚ) - 1 / 10000000000
    minutesFromUTC := 0 }

/-- `TimeComponents(int secondInDayA, double secondInDayB)`: delegates to the
four-argument constructor, detecting an implicit positive leap second. -/
def ofSplitSeconds (secondInDayA : Int) (secondInDayB : ℚ) : TimeComponents :=
  if (Constants.JULIAN_DAY - secondInDayA) - secondInDayB > 0 then
    fromSeconds secondInDayA secondInDayB 0 60
  else
    fromSeconds (secondInDayA - 1) secondInDayB 1 61

def getHour (t : TimeComponents) : Int := t.hour

def getMinute (t : TimeComponents) : Int := t.minute

def getSecond (t : TimeComponents) : ℚ := t.second

def getMinutesFromUTC (t : TimeComponents) : Int := t.minutesFromUTC

/-- `return second + 60. * minute + 3600. * hour;` -/
def getSecondsInLocalDay (t : TimeComponents) : ℚ :=
  t.second + 60 * (t.minute : ℚ) + 3600 * (t.hour : ℚ)

/-- `return second + 60. * (minute - minutesFromUTC) + 3600. * hour;` -/
def getSecondsInUTCDay (t : TimeComponents) : ℚ :=
  t.second + 60 * ((t.minute : ℚ) - (t.minutesFromUTC : ℚ)) + 3600 * (t.hour : ℚ)

/-- `TimeComponents::operator==`: exact on hour, minute and UTC offset,
`fabs(second - other.second) < 1e-8` on the second. -/
def eqOp (a b : TimeComponents) : Prop :=
  a.hour = b.hour ∧ a.minute = b.minute ∧
  |a.second - b.second| < 1 / 100000000 ∧ a.minutesFromUTC = b.minutesFromUTC

instance (a b : TimeComponents) : Decidable (a.eqOp b) := by
  unfold eqOp
  infer_instance

/-- `TimeComponents::hashCode`: `int64_t bits = (int64_t) second;` then
`((hour << 16) ^ ((minute - minutesFromUTC) << 8)) ^ (int)(bits ^ (bits >> 32))`. -/
def hashCode (t : TimeComponents) : Int :=
  let bits : Int := ratTrunc t.second
  xor32 (xor32 (shl32 t.hour 16) (shl32 (t.minute - t.minutesFromUTC) 8))
    (castToInt32 (xor64 bits (asr64 bits 32)))

end TimeComponents

/-- Holder for date and time components (`class DateTimeComponents`). -/
structure DateTimeComponents where
  date : DateComponents
  time : TimeComponents
deriving DecidableEq, Repr

namespace DateTimeComponents

def getDate (c : DateTimeComponents) : DateComponents := c.date

def getTime (c : DateTimeComponents) : TimeComponents := c.time

/-- `DateTimeComponents::offsetFrom`: day-count difference times the day
length plus the difference of the seconds within the UTC day. -/
def offsetFrom (a dateTime : DateTimeComponents) : ℚ :=
  let dateOffset : Int := a.date.getJ2000Day - dateTime.date.getJ2000Day
  let timeOffset : ℚ := a.time.getSecondsInUTCDay - dateTime.time.getSecondsInUTCDay
  Constants.JULIAN_DAY * (dateOffset : ℚ) + timeOffset

/-- `DateTimeComponents::operator==`: conjunction of the two member
equality operators. -/
def eqOp (a b : DateTimeComponents) : Prop :=
  a.date.eqOp b.date ∧ a.time.eqOp b.time

/-- `DateTimeComponents::hashCode`: `(date.hashCode() << 16) ^ time.hashCode()`. -/
def hashCode (c : DateTimeComponents) : Int :=
  xor32 (shl32 c.date.hashCode 16) c.time.hashCode

end DateTimeComponents

theorem dateEq_of_fields {a b : DateComponents} (h1 : a.year = b.year)
    (h2 : a.month = b.month) (h3 : a.day = b.day) : a = b := by
  cases a
  cases b
  simp_all

theorem timeEq_of_fields {a b : TimeComponents} (h1 : a.hour = b.hour)
    (h2 : a.minute = b.minute) (h3 : a.second = b.second)
    (h4 : a.minutesFromUTC = b.minutesFromUTC) : a = b := by
  cases a
  cases b
  simp_all

/-- Bounds of the normalised clock fields produced by the four-argument
seconds constructor, for a whole-second count within the day. -/
theorem fromSeconds_spec (A : Int) (B leap : ℚ) (md : Int)
    (h0 : 0 ≤ A + ⌊B⌋) (h1 : A + ⌊B⌋ ≤ 86399) :
    0 ≤ (TimeComponents.fromSeconds A B leap md).hour ∧
    (TimeComponents.fromSeconds A B leap md).hour ≤ 23 ∧
    0 ≤ (TimeComponents.fromSeconds A B leap md).minute ∧
    (TimeComponents.fromSeconds A B leap md).minute ≤ 59 ∧
    (TimeComponents.fromSeconds A B leap md).minutesFromUTC = 0 ∧
    (TimeComponents.fromSeconds A B leap md).second < md := by
  simp only [TimeComponents.fromSeconds]
  rw [cppDiv_nonneg_eq (by omega : (0:Int) ≤ A + ⌊B⌋) (by omega)]
  have hh0 : 0 ≤ (A + ⌊B⌋) / 3600 := by omega
  have hh1 : (A + ⌊B⌋) / 3600 ≤ 23 := by omega
  have hr0 : 0 ≤ A + ⌊B⌋ - 3600 * ((A + ⌊B⌋) / 3600) := by omega
  have hr1 : A + ⌊B⌋ - 3600 * ((A + ⌊B⌋) / 3600) ≤ 3599 := by omega
  rw [cppDiv_nonneg_eq hr0 (by omega)]
  refine ⟨hh0, hh1, by omega, by omega, by trivial, ?_⟩
  split_ifs with hclamp
  · exact hclamp
  · have : (0 : ℚ) < 1 / 10000000000 := by norm_num
    linarith

/-! ### Claims -/

/-- C1: Day-count/triple round-trip.  For every signed-32-bit day-count `d`,
`DateComponents(d).getJ2000Day() == d`; and for every valid calendar triple
`t`, rebuilding a `DateComponents` from `t.getJ2000Day()` reproduces
`getYear`/`getMonth`/`getDay` of `t`. -/
theorem C1_dayCount_triple_roundtrip :
    (∀ d : Int, -(2 ^ 31) ≤ d → d ≤ 2 ^ 31 - 1 →
      (DateComponents.ofOffset d).getJ2000Day = d) ∧
    (∀ t : DateComponents, DateComponents.ValidTriple t →
      (DateComponents.ofOffset t.getJ2000Day).getYear = t.getYear ∧
      (DateComponents.ofOffset t.getJ2000Day).getMonth = t.getMonth ∧
      (DateComponents.ofOffset t.getJ2000Day).getDay = t.getDay) := by
  constructor
  · intro d _ _
    exact getJ2000Day_ofOffset d
  · rintro t ⟨d, rfl⟩
    rw [getJ2000Day_ofOffset]
    exact ⟨rfl, rfl, rfl⟩

/-- Witness for C1 at `d = 0` (the J2000 epoch) and at the triple
2000-01-01. -/
theorem C1_witness :
    (DateComponents.ofOffset 0).getJ2000Day = 0 ∧
    (DateComponents.ofOffset (DateComponents.mk3 2000 1 1).getJ2000Day).getYear = 2000 := by
  constructor
  · exact C1_dayCount_triple_roundtrip.1 0 (by norm_num) (by norm_num)
  · exact ((C1_dayCount_triple_roundtrip.2 (DateComponents.mk3 2000 1 1)
      ⟨0, by decide⟩).1).trans rfl

/-- C2 (code bug evidence): the three-argument `DateComponents` constructor
copies any triple unchecked — including the reform-gap date 1582-10-10 and
the non-leap-year date 2001-02-29 — and `createFromWeekComponents` accepts
week 53 of the 52-week ISO year 1994, silently producing 1995-01-08.  No
error path exists in the source. -/
theorem C2_no_validation :
    (∀ year month day : Int, DateComponents.mk3 year month day =
      { year := year, month := month, day := day }) ∧
    DateComponents.mk3 1582 10 10 = { year := 1582, month := 10, day := 10 } ∧
    DateComponents.mk3 2001 2 29 = { year := 2001, month := 2, day := 29 } ∧
    DateComponents.weeksInYear 1994 = 52 ∧
    DateComponents.createFromWeekComponents 1994 53 7 =
      { year := 1995, month := 1, day := 8 } :=
  ⟨fun _ _ _ => rfl, rfl, rfl, by decide, by decide⟩

/-- C3: Calendar continuity across the Gregorian reform: 1582-10-15 is
exactly one day after 1582-10-04, no valid triple has a day-count strictly
between the two, and stepping one day back from 1582-10-15 yields
1582-10-04. -/
theorem C3_reform_continuity :
    (DateComponents.mk3 1582 10 15).getJ2000Day =
      (DateComponents.mk3 1582 10 4).getJ2000Day + 1 ∧
    (∀ t : DateComponents, DateComponents.ValidTriple t →
      ¬ ((DateComponents.mk3 1582 10 4).getJ2000Day < t.getJ2000Day ∧
         t.getJ2000Day < (DateComponents.mk3 1582 10 15).getJ2000Day)) ∧
    DateComponents.ofOffset ((DateComponents.mk3 1582 10 15).getJ2000Day - 1) =
      DateComponents.mk3 1582 10 4 := by
  refine ⟨by decide, ?_, by decide⟩
  intro t _
  have h4 : (DateComponents.mk3 1582 10 4).getJ2000Day = -152385 := by decide
  have h15 : (DateComponents.mk3 1582 10 15).getJ2000Day = -152384 := by decide
  omega

/-- Witness for C3's quantified conjunct at the valid triple 2000-01-01. -/
theorem C3_witness :
    ¬ ((DateComponents.mk3 1582 10 4).getJ2000Day <
         (DateComponents.mk3 2000 1 1).getJ2000Day ∧
       (DateComponents.mk3 2000 1 1).getJ2000Day <
         (DateComponents.mk3 1582 10 15).getJ2000Day) :=
  C3_reform_continuity.2.1 (DateComponents.mk3 2000 1 1) ⟨0, by decide⟩

/-- C4: ISO week-date round-trip for every valid `(wYear, week, dayOfWeek)`,
plus the two documented examples: 1995-01-01 is week-date (1994, 52, 7) and
1996-12-31 is week-date (1997, 1, 2). -/
theorem C4_week_roundtrip :
    (∀ wYear week dayOfWeek : Int, 1 ≤ dayOfWeek → dayOfWeek ≤ 7 → 1 ≤ week →
      week ≤ DateComponents.weeksInYear wYear →
      (DateComponents.createFromWeekComponents wYear week dayOfWeek).getCalendarWeek = week ∧
      (DateComponents.createFromWeekComponents wYear week dayOfWeek).getDayOfWeek = dayOfWeek) ∧
    (DateComponents.mk3 1995 1 1).getCalendarWeek = 52 ∧
    (DateComponents.mk3 1995 1 1).getDayOfWeek = 7 ∧
    DateComponents.createFromWeekComponents 1994 52 7 = DateComponents.mk3 1995 1 1 ∧
    (DateComponents.mk3 1996 12 31).getCalendarWeek = 1 ∧
    (DateComponents.mk3 1996 12 31).getDayOfWeek = 2 ∧
    DateComponents.createFromWeekComponents 1997 1 2 = DateComponents.mk3 1996 12 31 :=
  ⟨fun _ _ _ h1 h2 h3 h4 => week_roundtrip_aux h1 h2 h3 h4,
    by decide, by decide, by decide, by decide, by decide, by decide⟩

/-- Witness for C4 at week-date (1994, 52, 7). -/
theorem C4_witness :
    (DateComponents.createFromWeekComponents 1994 52 7).getCalendarWeek = 52 ∧
    (DateComponents.createFromWeekComponents 1994 52 7).getDayOfWeek = 7 :=
  C4_week_roundtrip.1 1994 52 7 (by norm_num) (by norm_num) (by norm_num) (by decide)

/-- C5: for valid dates, `operator<` agrees with day-count comparison, and
its incomparability classes coincide with triple equality (`operator==`). -/
theorem C5_ordering :
    ∀ a b : DateComponents, DateComponents.ValidTriple a → DateComponents.ValidTriple b →
      (a.ltOp b ↔ a.getJ2000Day < b.getJ2000Day) ∧
      ((¬ a.ltOp b ∧ ¬ b.ltOp a) ↔ a.eqOp b) := by
  rintro a b ⟨da, rfl⟩ ⟨db, rfl⟩
  refine ⟨Iff.rfl, ?_⟩
  unfold DateComponents.ltOp DateComponents.eqOp
  rw [getJ2000Day_ofOffset, getJ2000Day_ofOffset]
  constructor
  · intro h
    have hd : da = db := by omega
    subst hd
    exact ⟨rfl, rfl, rfl⟩
  · rintro ⟨h1, h2, h3⟩
    have heq : DateComponents.ofOffset da = DateComponents.ofOffset db :=
      dateEq_of_fields h1 h2 h3
    have hdc := congrArg DateComponents.getJ2000Day heq
    rw [getJ2000Day_ofOffset, getJ2000Day_ofOffset] at hdc
    omega

/-- Witness for C5 at 1858-11-17 (MJD epoch) and 2000-01-01. -/
theorem C5_witness :
    (DateComponents.mk3 1858 11 17).ltOp (DateComponents.mk3 2000 1 1) ↔
      (DateComponents.mk3 1858 11 17).getJ2000Day <
        (DateComponents.mk3 2000 1 1).getJ2000Day :=
  (C5_ordering (DateComponents.mk3 1858 11 17) (DateComponents.mk3 2000 1 1)
    ⟨-51544, by decide⟩ ⟨0, by decide⟩).1

/-- C7 (code bug evidence): at `fromSeconds(59, 0.0, 1.0, 60)` the raw
second-of-minute is 60, so the clamp fires; the source stores
`minuteDuration - 0.0000000001`, i.e. `60 - 10^-10`, which is not the
largest binary64 value strictly below 60 (that value is `60 - 2^-47`,
`FastMath.nextDown(minuteDuration)` promised by the header documentation);
the stored value is nevertheless strictly below the minute duration. -/
theorem C7_clamp_eval :
    (TimeComponents.fromSeconds 59 0 1 60).getSecond = 60 - 1 / 10000000000 ∧
    (60 - 1 / 10000000000 : ℚ) ≠ 60 - 1 / 2 ^ 47 ∧
    (TimeComponents.fromSeconds 59 0 1 60).getSecond < 60 := by
  have hs : (TimeComponents.fromSeconds 59 0 1 60).getSecond = 60 - 1 / 10000000000 := by
    simp only [TimeComponents.fromSeconds, TimeComponents.getSecond, Int.floor_zero,
      add_zero, sub_zero, mul_zero]
    rw [show cppDiv 59 3600 = 0 from by decide]
    simp only [mul_zero, sub_zero]
    rw [show cppDiv 59 60 = 0 from by decide]
    norm_num
  refine ⟨hs, by norm_num, ?_⟩
  rw [hs]
  norm_num

/-- C8: `offsetFrom` is antisymmetric. -/
theorem C8_offsetFrom_antisymm :
    ∀ a b : DateTimeComponents, a.offsetFrom b = -(b.offsetFrom a) := by
  intro a b
  simp only [DateTimeComponents.offsetFrom, Constants.JULIAN_DAY]
  push_cast
  ring

/-- C9 counterexample: two `TimeComponents` equal under the 1e-8-tolerance
`operator==` whose hash codes differ, because the hash truncates the second
to an integer: seconds 1.999999999 and 2.000000001 are equal to within
2e-9 but hash to 1 and 2. -/
theorem C9_counterexample :
    (TimeComponents.mkHMS 0 0 (1999999999 / 1000000000)).eqOp
      (TimeComponents.mkHMS 0 0 (2000000001 / 1000000000)) ∧
    (TimeComponents.mkHMS 0 0 (1999999999 / 1000000000)).hashCode ≠
      (TimeComponents.mkHMS 0 0 (2000000001 / 1000000000)).hashCode := by
  have hb1 : ratTrunc (1999999999 / 1000000000 : ℚ) = 1 := by
    unfold ratTrunc
    rw [if_pos (by norm_num), Int.floor_eq_iff]
    constructor <;> norm_num
  have hb2 : ratTrunc (2000000001 / 1000000000 : ℚ) = 2 := by
    unfold ratTrunc
    rw [if_pos (by norm_num), Int.floor_eq_iff]
    constructor <;> norm_num
  constructor
  · refine ⟨rfl, rfl, ?_, rfl⟩
    show |(1999999999 / 1000000000 : ℚ) - 2000000001 / 1000000000| < 1 / 100000000
    rw [abs_lt]
    constructor <;> norm_num
  · show (TimeComponents.mkHMS 0 0 (1999999999 / 1000000000)).hashCode ≠ _
    simp only [TimeComponents.hashCode, TimeComponents.mkHMS, TimeComponents.mkHMSU, hb1, hb2]
    decide

/-- C9 amended: hashes are consistent with equality for `DateComponents`
always; for `TimeComponents` and `DateTimeComponents` they are consistent
when the second components are exactly equal (not merely within the 1e-8
tolerance). -/
theorem C9_hash_amended :
    (∀ a b : DateComponents, a.eqOp b → a.hashCode = b.hashCode) ∧
    (∀ a b : TimeComponents, a.eqOp b → a.second = b.second →
      a.hashCode = b.hashCode) ∧
    (∀ a b : DateTimeComponents, a.eqOp b → a.time.second = b.time.second →
      a.hashCode = b.hashCode) := by
  refine ⟨?_, ?_, ?_⟩
  · intro a b h
    exact congrArg DateComponents.hashCode (dateEq_of_fields h.1 h.2.1 h.2.2)
  · intro a b h hs
    exact congrArg TimeComponents.hashCode
      (timeEq_of_fields h.1 h.2.1 hs h.2.2.2)
  · intro a b h hs
    have hd : a.date = b.date :=
      dateEq_of_fields h.1.1 h.1.2.1 h.1.2.2
    have ht : a.time = b.time :=
      timeEq_of_fields h.2.1 h.2.2.1 hs h.2.2.2.2
    cases a
    cases b
    simp_all

/-- Witness for the amended C9 at two syntactically distinct but equal
noon times. -/
theorem C9_witness :
    (TimeComponents.mkHMS 12 0 0).hashCode = (TimeComponents.mkHMSU 12 0 0 0).hashCode :=
  C9_hash_amended.2.1 (TimeComponents.mkHMS 12 0 0) (TimeComponents.mkHMSU 12 0 0 0)
    ⟨rfl, rfl, by norm_num [TimeComponents.mkHMS, TimeComponents.mkHMSU], rfl⟩ rfl

/-- C10: the two-argument seconds constructor always succeeds for
`0 ≤ secondInDayA + secondInDayB < 86401`; it normalizes with leap 0 and
minute duration 60 when `(86400 - secondInDayA) - secondInDayB > 0`, and
otherwise treats the instant as inside a positive leap second
(`secondInDayA - 1`, leap 1, minute duration 61); the result always has
hour in [0, 23], minute in [0, 59], second < 61 and a zero UTC offset. -/
theorem C10_implicit_leap :
    ∀ (secondInDayA : Int) (secondInDayB : ℚ),
      0 ≤ (secondInDayA : ℚ) + secondInDayB →
      (secondInDayA : ℚ) + secondInDayB < 86401 →
      ((Constants.JULIAN_DAY - secondInDayA) - secondInDayB > 0 →
        TimeComponents.ofSplitSeconds secondInDayA secondInDayB =
          TimeComponents.fromSeconds secondInDayA secondInDayB 0 60) ∧
      (¬ ((Constants.JULIAN_DAY - secondInDayA) - secondInDayB > 0) →
        TimeComponents.ofSplitSeconds secondInDayA secondInDayB =
          TimeComponents.fromSeconds (secondInDayA - 1) secondInDayB 1 61) ∧
      0 ≤ (TimeComponents.ofSplitSeconds secondInDayA secondInDayB).getHour ∧
      (TimeComponents.ofSplitSeconds secondInDayA secondInDayB).getHour ≤ 23 ∧
      0 ≤ (TimeComponents.ofSplitSeconds secondInDayA secondInDayB).getMinute ∧
      (TimeComponents.ofSplitSeconds secondInDayA secondInDayB).getMinute ≤ 59 ∧
      (TimeComponents.ofSplitSeconds secondInDayA secondInDayB).getSecond < 61 ∧
      (TimeComponents.ofSplitSeconds secondInDayA secondInDayB).getMinutesFromUTC = 0 := by
  intro A B hlo hhi
  have hJD : Constants.JULIAN_DAY = 86400 := rfl
  unfold TimeComponents.ofSplitSeconds
  rw [hJD]
  split_ifs with hcond
  · have h864 : (A : ℚ) + B < 86400 := by linarith
    have h0 : 0 ≤ A + ⌊B⌋ := by
      have := Int.floor_nonneg.mpr hlo
      rw [Int.floor_int_add] at this
      omega
    have h1 : A + ⌊B⌋ ≤ 86399 := by
      have := Int.floor_lt.mpr (show (A : ℚ) + B < (86400 : Int) by push_cast; linarith)
      rw [Int.floor_int_add] at this
      omega
    have hs := fromSeconds_spec A B 0 60 h0 h1
    refine ⟨fun _ => rfl, fun hc => absurd hcond hc, hs.1, hs.2.1, hs.2.2.1, hs.2.2.2.1, ?_,
      hs.2.2.2.2.1⟩
    have := hs.2.2.2.2.2
    show (TimeComponents.fromSeconds A B 0 60).second < 61
    have h60 : ((60 : Int) : ℚ) = 60 := by norm_num
    rw [h60] at this
    linarith
  · have h864 : (86400 : ℚ) ≤ (A : ℚ) + B := by linarith
    have hfl : ⌊(A : ℚ) + B⌋ = 86400 := by
      have hle : (86400 : Int) ≤ ⌊(A : ℚ) + B⌋ := Int.le_floor.mpr (by push_cast; linarith)
      have hlt : ⌊(A : ℚ) + B⌋ < 86401 :=
        Int.floor_lt.mpr (by push_cast; linarith)
      omega
    have hfl2 : A + ⌊B⌋ = 86400 := by
      rw [← Int.floor_int_add]
      exact hfl
    have h0 : 0 ≤ (A - 1) + ⌊B⌋ := by omega
    have h1 : (A - 1) + ⌊B⌋ ≤ 86399 := by omega
    have hs := fromSeconds_spec (A - 1) B 1 61 h0 h1
    refine ⟨fun hc => absurd hc hcond, fun _ => rfl, hs.1, hs.2.1, hs.2.2.1, hs.2.2.2.1, ?_,
      hs.2.2.2.2.1⟩
    have := hs.2.2.2.2.2
    show (TimeComponents.fromSeconds (A - 1) B 1 61).second < 61
    have h61 : ((61 : Int) : ℚ) = 61 := by norm_num
    rw [h61] at this
    exact this

/-- Witness for C10 during the leap second at the end of a day:
`secondInDayA = 86399`, `secondInDayB = 0.5`. -/
theorem C10_witness :
    0 ≤ (TimeComponents.ofSplitSeconds 86399 (1 / 2)).getHour ∧
    (TimeComponents.ofSplitSeconds 86399 (1 / 2)).getHour ≤ 23 ∧
    (TimeComponents.ofSplitSeconds 86399 (1 / 2)).getSecond < 61 := by
  have h := C10_implicit_leap 86399 (1 / 2) (by norm_num) (by norm_num)
  exact ⟨h.2.2.1, h.2.2.2.1, h.2.2.2.2.2.2.1⟩
